import Mathlib

set_option linter.unusedVariables false

/-!
Shallow embedding of the two specified components of `mcp_latex_server.py`:
the compilation orchestrator `compile_latex` and the syntax validator
`validate_latex_syntax` (embedded as `validate_latex`), with theorems settling the claims about
them.

The orchestrator is stateful (it changes the process working directory and
spawns external processes), so it is embedded as an explicit state-passing
function over a `World` carrying the current working directory and the
trace of spawned commands.  The behaviour of each external process is an
oracle (`CompileEnv.outcome`), so theorems quantify over every possible
combination of stage completions, timeouts and exceptions.
-/

/-- A value stored in a result record (the Python dict returned by a tool):
a string, an integer, or a boolean. -/
inductive JVal where
  | s (v : String)
  | i (v : Int)
  | b (v : Bool)
deriving DecidableEq

/-- A result record: a Python dict built by assigning fresh keys in order,
modelled as an association list in insertion order. -/
abbrev ResultRec := List (String × JVal)

/-- Ambient process state: the current working directory and the ordered
trace of commands handed to `subprocess.run` so far. -/
structure World where
  cwd : String
  spawned : List (List String)
deriving DecidableEq

/-- Behaviour of one spawned external process, chosen by the environment:
normal completion with captured stdout, stderr and exit code; a timeout
(`subprocess.TimeoutExpired`); or some other raised exception. -/
inductive Outcome where
  | ok (stdout stderr : String) (returncode : Int)
  | timeout
  | exc (msg : String)
deriving DecidableEq

/-- Result of running a Python block that may raise: a value, a propagating
`TimeoutExpired`, or a propagating other exception. -/
inductive PyResult (α : Type) where
  | val (a : α)
  | timeoutExn
  | otherExn (msg : String)
deriving DecidableEq

/-- The read-only environment of one `compile_latex` call: the facts the
code observes about the filesystem (`file_path.exists()`, suffix, name,
stem, parent directory, presence of `*.bib` files, presence of the output
PDF) and the behaviour `outcome k` of the `k`-th process it spawns. -/
structure CompileEnv where
  fileExists : Bool
  filePathStr : String
  suffix : String
  fileName : String
  stem : String
  parent : String
  bibFilesNonempty : Bool
  pdfExists : Bool
  pdfPathStr : String
  outcome : Nat → Outcome

/-- `self.supported_engines` from the source. -/
def supported_engines : List String :=
  ["pdflatex", "lualatex", "xelatex", "bibtex", "biber"]

/-- `subprocess.run(cmd, capture_output=True, text=True, timeout=...)`:
records the command in the spawn trace and yields the environment-chosen
outcome for this (the `k`-th) spawn. -/
def subprocess_run (env : CompileEnv) (cmd : List String) (w : World) :
    PyResult (String × String × Int) × World :=
  let w2 : World := { w with spawned := w.spawned ++ [cmd] }
  match env.outcome w.spawned.length with
  | Outcome.ok out err code => (PyResult.val (out, err, code), w2)
  | Outcome.timeout => (PyResult.timeoutExn, w2)
  | Outcome.exc m => (PyResult.otherExn m, w2)

/-- The body of the `try:` block of `compile_latex` (source lines 554-578):
first engine pass, optional bibliography pass plus re-compile pass, PDF
check, and the `success` flag, which the source computes from
`result.returncode` — the FIRST pass's exit code. -/
def compileBody (env : CompileEnv) (engine : String) (bibtex : Bool) (w : World) :
    PyResult ResultRec × World :=
  let cmd : List String := [engine, "-interaction=nonstopmode", env.fileName]
  match subprocess_run env cmd w with
  | (PyResult.timeoutExn, w1) => (PyResult.timeoutExn, w1)
  | (PyResult.otherExn m, w1) => (PyResult.otherExn m, w1)
  | (PyResult.val (out1, err1, code1), w1) =>
    let results : ResultRec :=
      [("latex_output", JVal.s out1), ("latex_errors", JVal.s err1),
       ("latex_returncode", JVal.i code1)]
    let afterBib : PyResult ResultRec × World :=
      if bibtex = true then
        if env.bibFilesNonempty = true then
          match subprocess_run env ["bibtex", env.stem] w1 with
          | (PyResult.timeoutExn, w2) => (PyResult.timeoutExn, w2)
          | (PyResult.otherExn m, w2) => (PyResult.otherExn m, w2)
          | (PyResult.val (bout, berr, bcode), w2) =>
            let results2 := results ++
              [("bibtex_output", JVal.s bout), ("bibtex_errors", JVal.s berr)]
            match subprocess_run env cmd w2 with
            | (PyResult.timeoutExn, w3) => (PyResult.timeoutExn, w3)
            | (PyResult.otherExn m, w3) => (PyResult.otherExn m, w3)
            | (PyResult.val (out2, err2, code2), w3) =>
              (PyResult.val (results2 ++ [("latex_output_2", JVal.s out2)]), w3)
        else (PyResult.val results, w1)
      else (PyResult.val results, w1)
    match afterBib with
    | (PyResult.timeoutExn, w4) => (PyResult.timeoutExn, w4)
    | (PyResult.otherExn m, w4) => (PyResult.otherExn m, w4)
    | (PyResult.val results3, w4) =>
      let results4 := results3 ++ [("pdf_generated", JVal.b env.pdfExists)]
      let results5 :=
        if env.pdfExists = true then results4 ++ [("pdf_path", JVal.s env.pdfPathStr)]
        else results4
      (PyResult.val (results5 ++ [("success", JVal.b (code1 == 0))]), w4)

/-- `compile_latex` (source lines 534-588): precondition checks in order,
`os.chdir` to the source's parent, the `try ... finally os.chdir(original_cwd)`
around the staged protocol, and the outer `except` clauses turning a
`TimeoutExpired` into `{"error": "Compilation timed out"}` and any other
exception into `{"error": "Compilation failed: ..."}`. -/
def compile_latex (env : CompileEnv) (engine : String) (bibtex : Bool) (w : World) :
    ResultRec × World :=
  if env.fileExists = false then
    ([("error", JVal.s ("File does not exist: " ++ env.filePathStr))], w)
  else if ¬ env.suffix = ".tex" then
    ([("error", JVal.s "File must have .tex extension")], w)
  else if ¬ engine ∈ supported_engines then
    ([("error", JVal.s ("Unsupported engine: " ++ engine))], w)
  else
    match compileBody env engine bibtex { w with cwd := env.parent } with
    | (PyResult.val results, w2) => (results, { w2 with cwd := w.cwd })
    | (PyResult.timeoutExn, w2) =>
      ([("error", JVal.s "Compilation timed out")], { w2 with cwd := w.cwd })
    | (PyResult.otherExn m, w2) =>
      ([("error", JVal.s ("Compilation failed: " ++ m))], { w2 with cwd := w.cwd })

/-- Modelled from the spec: §7's NotFound kind — the message shape the
orchestrator emits for a missing source file. -/
def IsNotFoundMsg (m : String) : Prop :=
  ∃ p, m = "File does not exist: " ++ p

/-- Modelled from the spec: §7's InvalidInput kind — the message shapes the
orchestrator emits for a bad extension or an unsupported engine. -/
def IsInvalidInputMsg (m : String) : Prop :=
  m = "File must have .tex extension" ∨ ∃ e, m = "Unsupported engine: " ++ e

/-- Modelled from the spec: §7's Timeout kind — the message the
orchestrator emits when a stage exceeds its bound. -/
def IsTimeoutMsg (m : String) : Prop :=
  m = "Compilation timed out"

/-! ### Concrete environments used by counterexamples and witnesses -/

/-- A fresh world: some ambient working directory, no process spawned yet. -/
def w0 : World := { cwd := "/home/user", spawned := [] }

/-- Concrete environment: existing `.tex` file, a `.bib` file present, the
first engine pass exits 1, the bibliography pass and the re-compile pass
both exit 0. -/
def envBib : CompileEnv :=
  { fileExists := true, filePathStr := "/ws/doc.tex", suffix := ".tex",
    fileName := "doc.tex", stem := "doc", parent := "/ws",
    bibFilesNonempty := true, pdfExists := true, pdfPathStr := "/ws/doc.pdf",
    outcome := fun k =>
      if k = 0 then Outcome.ok "run1 out" "run1 err" 1
      else if k = 1 then Outcome.ok "bib out" "bib err" 0
      else Outcome.ok "run2 out" "run2 err" 0 }

/-- Concrete environment: existing `.tex` file whose every external stage
times out. -/
def envTO : CompileEnv :=
  { fileExists := true, filePathStr := "/ws/doc.tex", suffix := ".tex",
    fileName := "doc.tex", stem := "doc", parent := "/ws",
    bibFilesNonempty := false, pdfExists := false, pdfPathStr := "/ws/doc.pdf",
    outcome := fun _ => Outcome.timeout }

/-- Concrete environment: nonexistent source path (and a wrong extension
and, at the call sites below, an unsupported engine, to show the existence
check wins). -/
def envMissing : CompileEnv :=
  { fileExists := false, filePathStr := "/ws/missing.txt", suffix := ".txt",
    fileName := "missing.txt", stem := "missing", parent := "/ws",
    bibFilesNonempty := false, pdfExists := false, pdfPathStr := "/ws/missing.pdf",
    outcome := fun _ => Outcome.ok "" "" 0 }

/-- Concrete environment: existing `.tex` file, bibliography flag will be
set but no `.bib` file is present; single engine pass exits 0. -/
def envNoBib : CompileEnv :=
  { fileExists := true, filePathStr := "/ws/doc.tex", suffix := ".tex",
    fileName := "doc.tex", stem := "doc", parent := "/ws",
    bibFilesNonempty := false, pdfExists := true, pdfPathStr := "/ws/doc.pdf",
    outcome := fun _ => Outcome.ok "run1 out" "run1 err" 0 }

/-! ### Orchestrator theorems -/

/-- Claim C2 (confirmed): for every compile request passing the
preconditions, the ambient working directory after `compile_latex` equals
the directory current before the call, on every exit path — the oracle
`env.outcome` ranges over normal completion, timeouts and exceptions at
every stage. -/
theorem compile_restores_cwd (env : CompileEnv) (engine : String) (bibtex : Bool)
    (w : World) (hex : env.fileExists = true) (hsuf : env.suffix = ".tex")
    (heng : engine ∈ supported_engines) :
    (compile_latex env engine bibtex w).2.cwd = w.cwd := by
  unfold compile_latex
  rw [if_neg (by simp [hex]), if_neg (by simp [hsuf]), if_neg (by simp [heng])]
  rcases h : compileBody env engine bibtex { w with cwd := env.parent } with ⟨r, w2⟩
  cases r <;> simp [h]

/-- Witness for C2: a compile whose first stage times out still restores
the working directory. -/
theorem compile_restores_cwd_witness :
    envTO.fileExists = true ∧ envTO.suffix = ".tex" ∧
    "pdflatex" ∈ supported_engines ∧
    (compile_latex envTO "pdflatex" false w0).2.cwd = w0.cwd :=
  ⟨rfl, rfl, by decide,
    compile_restores_cwd envTO "pdflatex" false w0 rfl rfl (by decide)⟩

/-- Claim C3 (confirmed): the precondition checks run in a fixed order with
the first failure winning — a nonexistent path yields the NotFound-shaped
error with nothing spawned, whatever the extension and engine; the
extension check fires only for existing files; the engine check fires only
after the extension check passes.  In every failing case no process is
spawned. -/
theorem compile_precondition_order (env : CompileEnv) (engine : String)
    (bibtex : Bool) (w : World) :
    (env.fileExists = false →
      (compile_latex env engine bibtex w).1 =
        [("error", JVal.s ("File does not exist: " ++ env.filePathStr))] ∧
      IsNotFoundMsg ("File does not exist: " ++ env.filePathStr) ∧
      (compile_latex env engine bibtex w).2.spawned = w.spawned) ∧
    (env.fileExists = true → ¬ env.suffix = ".tex" →
      (compile_latex env engine bibtex w).1 =
        [("error", JVal.s "File must have .tex extension")] ∧
      IsInvalidInputMsg "File must have .tex extension" ∧
      (compile_latex env engine bibtex w).2.spawned = w.spawned) ∧
    (env.fileExists = true → env.suffix = ".tex" → ¬ engine ∈ supported_engines →
      (compile_latex env engine bibtex w).1 =
        [("error", JVal.s ("Unsupported engine: " ++ engine))] ∧
      IsInvalidInputMsg ("Unsupported engine: " ++ engine) ∧
      (compile_latex env engine bibtex w).2.spawned = w.spawned) := by
  refine ⟨fun h1 => ?_, fun h1 h2 => ?_, fun h1 h2 h3 => ?_⟩
  · rw [compile_latex, if_pos h1]
    exact ⟨rfl, ⟨env.filePathStr, rfl⟩, rfl⟩
  · rw [compile_latex, if_neg (by simp [h1]), if_pos h2]
    exact ⟨rfl, Or.inl rfl, rfl⟩
  · rw [compile_latex, if_neg (by simp [h1]), if_neg (by simp [h2]), if_pos h3]
    exact ⟨rfl, Or.inr ⟨engine, rfl⟩, rfl⟩

/-- Witness for C3: a nonexistent path with a wrong extension and an
unsupported engine still yields the NotFound-shaped error, with no process
spawned. -/
theorem compile_precondition_order_witness :
    envMissing.fileExists = false ∧
    ((compile_latex envMissing "pstricks" false w0).1 =
        [("error", JVal.s ("File does not exist: " ++ envMissing.filePathStr))] ∧
      IsNotFoundMsg ("File does not exist: " ++ envMissing.filePathStr) ∧
      (compile_latex envMissing "pstricks" false w0).2.spawned = w0.spawned) :=
  ⟨rfl, (compile_precondition_order envMissing "pstricks" false w0).1 rfl⟩

/-- Claim C4 (confirmed): with the bibliography flag set but no `.bib` file
in the working directory, the bibliography stage and the re-compile pass
are skipped silently — the result has no `bibtex_output` field, exactly one
engine pass is spawned, and `success` is the single pass's exit code
compared to zero. -/
theorem compile_bib_skip_no_bib_files (env : CompileEnv) (engine : String)
    (w : World) (out err : String) (code : Int)
    (hex : env.fileExists = true) (hsuf : env.suffix = ".tex")
    (heng : engine ∈ supported_engines) (hw : w.spawned = [])
    (hb : env.bibFilesNonempty = false)
    (h0 : env.outcome 0 = Outcome.ok out err code) :
    List.lookup "bibtex_output" (compile_latex env engine true w).1 = none ∧
    List.lookup "success" (compile_latex env engine true w).1 =
      some (JVal.b (code == 0)) ∧
    (compile_latex env engine true w).2.spawned =
      [[engine, "-interaction=nonstopmode", env.fileName]] := by
  rw [compile_latex, if_neg (by simp [hex]), if_neg (by simp [hsuf]),
    if_neg (by simp [heng])]
  by_cases hp : env.pdfExists = true <;>
    simp [compileBody, subprocess_run, hw, hb, h0, hp, List.lookup]

/-- Witness for C4: concrete run with the bibliography flag set, no `.bib`
file, single pass exiting 0. -/
theorem compile_bib_skip_no_bib_files_witness :
    envNoBib.fileExists = true ∧ envNoBib.suffix = ".tex" ∧
    "pdflatex" ∈ supported_engines ∧ w0.spawned = [] ∧
    envNoBib.bibFilesNonempty = false ∧
    envNoBib.outcome 0 = Outcome.ok "run1 out" "run1 err" 0 ∧
    (List.lookup "bibtex_output" (compile_latex envNoBib "pdflatex" true w0).1 = none ∧
      List.lookup "success" (compile_latex envNoBib "pdflatex" true w0).1 =
        some (JVal.b ((0 : Int) == 0)) ∧
      (compile_latex envNoBib "pdflatex" true w0).2.spawned =
        [["pdflatex", "-interaction=nonstopmode", envNoBib.fileName]]) :=
  ⟨rfl, rfl, by decide, rfl, rfl, rfl,
    compile_bib_skip_no_bib_files envNoBib "pdflatex" w0 "run1 out" "run1 err" 0
      rfl rfl (by decide) rfl rfl rfl⟩

/-- Claim C9 (confirmed): whenever the bibliography stage runs, the spawned
bibliography command is the fixed executable `bibtex` applied to the
source's stem, for every supported engine — the engine name never changes
the bibliography tool. -/
theorem compile_bib_tool_fixed (env : CompileEnv) (engine : String)
    (w : World) (out err : String) (code : Int)
    (hex : env.fileExists = true) (hsuf : env.suffix = ".tex")
    (heng : engine ∈ supported_engines) (hw : w.spawned = [])
    (hbib : env.bibFilesNonempty = true)
    (h0 : env.outcome 0 = Outcome.ok out err code) :
    ((compile_latex env engine true w).2.spawned)[1]? = some ["bibtex", env.stem] := by
  rw [compile_latex, if_neg (by simp [hex]), if_neg (by simp [hsuf]),
    if_neg (by simp [heng])]
  cases h1 : env.outcome 1 with
  | ok o e c =>
    cases h2 : env.outcome 2 <;>
      by_cases hp : env.pdfExists = true <;>
        simp [compileBody, subprocess_run, hw, hbib, h0, h1, h2, hp]
  | timeout => simp [compileBody, subprocess_run, hw, hbib, h0, h1]
  | exc m => simp [compileBody, subprocess_run, hw, hbib, h0, h1]

/-- Witness for C9: requesting engine `biber` still spawns `bibtex` as the
bibliography tool. -/
theorem compile_bib_tool_fixed_witness :
    envBib.fileExists = true ∧ envBib.suffix = ".tex" ∧
    "biber" ∈ supported_engines ∧ w0.spawned = [] ∧
    envBib.bibFilesNonempty = true ∧
    envBib.outcome 0 = Outcome.ok "run1 out" "run1 err" 1 ∧
    ((compile_latex envBib "biber" true w0).2.spawned)[1]? =
      some ["bibtex", envBib.stem] :=
  ⟨rfl, rfl, by decide, rfl, rfl, rfl,
    compile_bib_tool_fixed envBib "biber" w0 "run1 out" "run1 err" 1
      rfl rfl (by decide) rfl rfl rfl⟩

/-- Claim C10 (confirmed): if any stage (first engine pass, bibliography
pass, or re-compile pass) times out, the returned record is exactly the
single timeout error entry — everything captured from earlier completed
stages is discarded and no success, artifact or per-stage field appears. -/
theorem compile_timeout_discards_partial (env : CompileEnv) (engine : String)
    (bibtex : Bool) (w : World)
    (hex : env.fileExists = true) (hsuf : env.suffix = ".tex")
    (heng : engine ∈ supported_engines) (hw : w.spawned = [])
    (hcase : env.outcome 0 = Outcome.timeout ∨
      (bibtex = true ∧ env.bibFilesNonempty = true ∧
        (∃ o e c, env.outcome 0 = Outcome.ok o e c) ∧
        env.outcome 1 = Outcome.timeout) ∨
      (bibtex = true ∧ env.bibFilesNonempty = true ∧
        (∃ o e c, env.outcome 0 = Outcome.ok o e c) ∧
        (∃ o e c, env.outcome 1 = Outcome.ok o e c) ∧
        env.outcome 2 = Outcome.timeout)) :
    (compile_latex env engine bibtex w).1 =
      [("error", JVal.s "Compilation timed out")] ∧
    IsTimeoutMsg "Compilation timed out" := by
  refine ⟨?_, rfl⟩
  rw [compile_latex, if_neg (by simp [hex]), if_neg (by simp [hsuf]),
    if_neg (by simp [heng])]
  rcases hcase with h0 | ⟨hb, hbib, ⟨o, e, c, h0⟩, h1⟩ |
    ⟨hb, hbib, ⟨o, e, c, h0⟩, ⟨o2, e2, c2, h1⟩, h2⟩
  · simp [compileBody, subprocess_run, hw, h0]
  · subst hb
    simp [compileBody, subprocess_run, hw, hbib, h0, h1]
  · subst hb
    simp [compileBody, subprocess_run, hw, hbib, h0, h1, h2]

/-- Witness for C10: a first-stage timeout yields exactly the timeout error
record. -/
theorem compile_timeout_discards_partial_witness :
    envTO.fileExists = true ∧ envTO.suffix = ".tex" ∧
    "pdflatex" ∈ supported_engines ∧ w0.spawned = [] ∧
    envTO.outcome 0 = Outcome.timeout ∧
    ((compile_latex envTO "pdflatex" false w0).1 =
        [("error", JVal.s "Compilation timed out")] ∧
      IsTimeoutMsg "Compilation timed out") :=
  ⟨rfl, rfl, by decide, rfl, rfl,
    compile_timeout_discards_partial envTO "pdflatex" false w0 rfl rfl
      (by decide) rfl (Or.inl rfl)⟩

/-- Claim C1 counterexample: bibliography flag set, a `.bib` file present,
all three stages run (three spawns); the re-compile pass (spawn #2,
`envBib.outcome 2`) exits 0, yet the returned `success` flag is `false` —
so success is NOT `true` iff the re-compile pass's exit code is zero.  The
source computes `results['success'] = result.returncode == 0` from the
first pass (`result`), not from `result2`. -/
theorem compile_success_recompile_cex :
    envBib.outcome 2 = Outcome.ok "run2 out" "run2 err" 0 ∧
    (compile_latex envBib "pdflatex" true w0).2.spawned =
      [["pdflatex", "-interaction=nonstopmode", "doc.tex"], ["bibtex", "doc"],
       ["pdflatex", "-interaction=nonstopmode", "doc.tex"]] ∧
    List.lookup "success" (compile_latex envBib "pdflatex" true w0).1 =
      some (JVal.b false) ∧
    ¬ List.lookup "success" (compile_latex envBib "pdflatex" true w0).1 =
      some (JVal.b true) := by
  refine ⟨rfl, by decide, by decide, by decide⟩

/-- Claim C1 (corrected): with the bibliography flag set, a `.bib` file
present and all three stages completing, the returned `success` flag is
the FIRST engine pass's exit code compared to zero, whatever the
bibliography pass and the re-compile pass return. -/
theorem compile_success_first_pass (env : CompileEnv) (engine : String)
    (w : World) (o1 e1 bo be o2 e2 : String) (c1 bc c2 : Int)
    (hex : env.fileExists = true) (hsuf : env.suffix = ".tex")
    (heng : engine ∈ supported_engines) (hw : w.spawned = [])
    (hbib : env.bibFilesNonempty = true)
    (h0 : env.outcome 0 = Outcome.ok o1 e1 c1)
    (h1 : env.outcome 1 = Outcome.ok bo be bc)
    (h2 : env.outcome 2 = Outcome.ok o2 e2 c2) :
    List.lookup "success" (compile_latex env engine true w).1 =
      some (JVal.b (c1 == 0)) := by
  rw [compile_latex, if_neg (by simp [hex]), if_neg (by simp [hsuf]),
    if_neg (by simp [heng])]
  by_cases hp : env.pdfExists = true <;>
    simp [compileBody, subprocess_run, hw, hbib, h0, h1, h2, hp, List.lookup]

/-- Witness for C1 (corrected): at `envBib` the first pass exits 1, so
`success` is `(1 == 0)`, i.e. `false`. -/
theorem compile_success_first_pass_witness :
    envBib.fileExists = true ∧ envBib.suffix = ".tex" ∧
    "pdflatex" ∈ supported_engines ∧ w0.spawned = [] ∧
    envBib.bibFilesNonempty = true ∧
    envBib.outcome 0 = Outcome.ok "run1 out" "run1 err" 1 ∧
    envBib.outcome 1 = Outcome.ok "bib out" "bib err" 0 ∧
    envBib.outcome 2 = Outcome.ok "run2 out" "run2 err" 0 ∧
    List.lookup "success" (compile_latex envBib "pdflatex" true w0).1 =
      some (JVal.b ((1 : Int) == 0)) :=
  ⟨rfl, rfl, by decide, rfl, rfl, rfl, rfl, rfl,
    compile_success_first_pass envBib "pdflatex" w0 "run1 out" "run1 err"
      "bib out" "bib err" "run2 out" "run2 err" 1 0 0 rfl rfl (by decide)
      rfl rfl rfl rfl rfl⟩

/-!
## Syntax validator

The source's `validate_latex_syntax` (lines 590-654) is a pure function
of the file content once the content is read; it is embedded here as
`validate_latex`, a pure function from the content string to the
returned report.
-/

/-- The error string `f"Line {i}: Unmatched closing brace"`. -/
def braceMsg (i : Nat) : String :=
  "Line " ++ toString i ++ ": Unmatched closing brace"

/-- One character of the brace-balance scan (source lines 608-615): an
opening brace increments the signed counter, a closing brace decrements
it, and when the counter goes negative the line-tagged error is appended
and the counter reset to zero. -/
def braceChar (st : List String × Int) (i : Nat) (ch : Char) : List String × Int :=
  if ch = '{' then (st.1, st.2 + 1)
  else if ch = '}' then
    if st.2 - 1 < 0 then (st.1 ++ [braceMsg i], 0)
    else (st.1, st.2 - 1)
  else st

/-- The scan of one line's characters; `i` is the line's 1-based number. -/
def braceLine (st : List String × Int) (i : Nat) (line : List Char) :
    List String × Int :=
  line.foldl (fun s ch => braceChar s i ch) st

/-- The scan over the remaining lines, the next line numbered `i`
(`enumerate(lines, 1)` numbers from 1). -/
def braceScanLines : Nat → List (List Char) → List String × Int → List String × Int
  | _, [], st => st
  | i, l :: ls, st => braceScanLines (i + 1) ls (braceLine st i l)

/-- `content.split('\n')` on the character list: splitting on the single
newline character, keeping empty parts, one part more than there are
newlines. -/
def splitLines : List Char → List (List Char)
  | [] => [[]]
  | c :: rest =>
    if c = '\n' then [] :: splitLines rest
    else
      match splitLines rest with
      | [] => [[c]]
      | l :: ls => (c :: l) :: ls

/-- The whole brace scan of `content`: `content.split('\n')`, then the
per-line character scan from an empty error list and counter 0. -/
def braceResult (content : String) : List String × Int :=
  braceScanLines 1 (splitLines content.data) ([], 0)

/-- `pat` occurs contiguously somewhere in `l` (what `re.search` of a
literal pattern tests). -/
def containsSub (pat : List Char) : List Char → Bool
  | [] => List.isPrefixOf pat []
  | c :: rest => List.isPrefixOf pat (c :: rest) || containsSub pat rest

/-- `re.search(r'\\documentclass', content)`: the literal marker occurs in
the content. -/
def hasDocumentclass (content : String) : Bool :=
  containsSub "\\documentclass".data content.data

/-- `re.search(r'\\begin\{document\}', content)`. -/
def hasBeginDocument (content : String) : Bool :=
  containsSub "\\begin{document}".data content.data

/-- `re.search(r'\\end\{document\}', content)`. -/
def hasEndDocument (content : String) : Bool :=
  containsSub "\\end{document}".data content.data

/-- `re.findall(cmd ++ "([^}]+)}", content)` for a literal pattern `cmd`
ending in an opening brace: left-to-right non-overlapping matches of `cmd`,
then one or more non-`}` characters (captured greedily), then `}`.  On a
failed match the scan advances one character; after a successful match it
resumes past the closing brace.  The fuel only bounds the iteration count:
every step consumes at least one character, so `l.length` fuel scans all
of `l` (the fuel-0 case is unreachable from `findArgs`). -/
def findArgsAux (cmd : List Char) : Nat → List Char → List (List Char)
  | 0, _ => []
  | _, [] => []
  | fuel + 1, ch :: rest =>
    if List.isPrefixOf cmd (ch :: rest) then
      let after := (ch :: rest).drop cmd.length
      let arg := after.takeWhile (fun c => ¬ c = '}')
      let rem := after.drop arg.length
      if ¬ arg = [] ∧ rem.head? = some '}' then arg :: findArgsAux cmd fuel rem.tail
      else findArgsAux cmd fuel rest
    else findArgsAux cmd fuel rest

/-- All captured arguments of the pattern `cmd ++ "([^}]+)}"` in `l`. -/
def findArgs (cmd : List Char) (l : List Char) : List (List Char) :=
  findArgsAux cmd l.length l

/-- `re.findall(r'\\ref\{([^}]+)\}', content)`. -/
def refsOf (content : String) : List String :=
  (findArgs "\\ref\x7b".data content.data).map String.mk

/-- `re.findall(r'\\label\{([^}]+)\}', content)`. -/
def labelsOf (content : String) : List String :=
  (findArgs "\\label\x7b".data content.data).map String.mk

/-- The validator's report: what the claims observe of the returned dict. -/
structure ValidationReport where
  errors : List String
  warnings : List String
  is_valid : Bool
  structure_complete : Bool
deriving DecidableEq

/-- The source's `validate_latex_syntax` (lines 600-651) on the file content:
brace scan, aggregate unclosed-brace error, the three structural-marker
errors, the math-delimiter parity warning, and the dangling-reference
warning. -/
def validate_latex (content : String) : ValidationReport :=
  let br := braceResult content
  let errors1 :=
    if br.2 > 0 then br.1 ++ ["Unmatched opening braces: " ++ toString br.2]
    else br.1
  let errors2 := errors1 ++
    (if hasDocumentclass content then [] else ["Missing \\documentclass command"])
  let errors3 := errors2 ++
    (if hasBeginDocument content then [] else ["Missing \\begin{document}"])
  let errors4 := errors3 ++
    (if hasEndDocument content then [] else ["Missing \\end{document}"])
  let warnings1 : List String :=
    if content.data.contains '$' ∧ ¬ content.data.count '$' % 2 = 0 then
      ["Unmatched math mode delimiters ($)"]
    else []
  let undefined_refs :=
    (refsOf content).filter (fun r => ! List.contains (labelsOf content) r)
  let warnings2 := warnings1 ++
    (if ¬ undefined_refs = [] then
      ["Potentially undefined references: " ++ String.intercalate ", " undefined_refs]
     else [])
  { errors := errors4, warnings := warnings2,
    is_valid := errors4.isEmpty,
    structure_complete := hasDocumentclass content && hasBeginDocument content
      && hasEndDocument content }

/-!
### Spec-side description of the brace scan

`specBraceChar`/`strayCloseLines`/`unclosedOpenCount` follow the spec's
words (§4.2): iterate characters in reading order tracking a signed
counter; whenever the counter would go negative at a closing brace, record
that brace's 1-based line number and reset the counter to zero; the final
counter value is the number of unclosed opening braces.  Claim C5 relates
the validator's emitted error strings to this description.
-/

/-- Follows the spec's words: one character of the scan, recording the line
number of a stray closing brace instead of an error string. -/
def specBraceChar (st : List Nat × Int) (i : Nat) (ch : Char) : List Nat × Int :=
  if ch = '{' then (st.1, st.2 + 1)
  else if ch = '}' then
    if st.2 - 1 < 0 then (st.1 ++ [i], 0)
    else (st.1, st.2 - 1)
  else st

/-- Follows the spec's words: the scan of one line, `i` its 1-based number. -/
def specBraceLine (st : List Nat × Int) (i : Nat) (line : List Char) :
    List Nat × Int :=
  line.foldl (fun s ch => specBraceChar s i ch) st

/-- Follows the spec's words: the scan over the remaining lines. -/
def specBraceScanLines : Nat → List (List Char) → List Nat × Int → List Nat × Int
  | _, [], st => st
  | i, l :: ls, st => specBraceScanLines (i + 1) ls (specBraceLine st i l)

/-- The 1-based line numbers at which the counter would go negative at a
closing brace (one entry per damping reset, in reading order). -/
def strayCloseLines (content : String) : List Nat :=
  (specBraceScanLines 1 (splitLines content.data) ([], 0)).1

/-- The counter value after the full scan: the number of unclosed opening
braces. -/
def unclosedOpenCount (content : String) : Int :=
  (specBraceScanLines 1 (splitLines content.data) ([], 0)).2

lemma braceChar_map (strays : List Nat) (c : Int) (i : Nat) (ch : Char) :
    braceChar (strays.map braceMsg, c) i ch =
      ((specBraceChar (strays, c) i ch).1.map braceMsg,
        (specBraceChar (strays, c) i ch).2) := by
  unfold braceChar specBraceChar
  split_ifs <;> simp

lemma braceLine_map (line : List Char) : ∀ (strays : List Nat) (c : Int) (i : Nat),
    braceLine (strays.map braceMsg, c) i line =
      ((specBraceLine (strays, c) i line).1.map braceMsg,
        (specBraceLine (strays, c) i line).2) := by
  induction line with
  | nil => intro strays c i; rfl
  | cons ch rest ih =>
    intro strays c i
    unfold braceLine specBraceLine
    simp only [List.foldl_cons]
    rw [braceChar_map]
    exact ih (specBraceChar (strays, c) i ch).1 (specBraceChar (strays, c) i ch).2 i

lemma braceScanLines_map (ls : List (List Char)) :
    ∀ (i : Nat) (strays : List Nat) (c : Int),
    braceScanLines i ls (strays.map braceMsg, c) =
      ((specBraceScanLines i ls (strays, c)).1.map braceMsg,
        (specBraceScanLines i ls (strays, c)).2) := by
  induction ls with
  | nil => intro i strays c; rfl
  | cons l rest ih =>
    intro i strays c
    unfold braceScanLines specBraceScanLines
    rw [braceLine_map]
    exact ih (i + 1) (specBraceLine (strays, c) i l).1 (specBraceLine (strays, c) i l).2

/-- The validator's brace scan emits exactly the line-tagged messages of
the spec-side scan, and computes the same final counter. -/
lemma braceResult_eq (content : String) :
    braceResult content =
      ((strayCloseLines content).map braceMsg, unclosedOpenCount content) := by
  unfold braceResult strayCloseLines unclosedOpenCount
  have h := braceScanLines_map (splitLines content.data) 1 [] 0
  simpa using h

/-- The validator's error list, laid out as the brace-scan messages, the
optional aggregate unclosed-brace error, and the three optional
structural-marker errors, in that order. -/
lemma validate_errors_eq (content : String) :
    (validate_latex content).errors =
      (strayCloseLines content).map braceMsg ++
      (if unclosedOpenCount content > 0 then
        ["Unmatched opening braces: " ++ toString (unclosedOpenCount content)]
       else []) ++
      (if hasDocumentclass content then [] else ["Missing \\documentclass command"]) ++
      (if hasBeginDocument content then [] else ["Missing \\begin{document}"]) ++
      (if hasEndDocument content then [] else ["Missing \\end{document}"]) := by
  simp only [validate_latex, braceResult_eq]
  split_ifs <;> simp [List.append_assoc]

/-- The validator's warning list, laid out as the optional math-parity
warning and the optional dangling-reference warning. -/
lemma validate_warnings_eq (content : String) :
    (validate_latex content).warnings =
      (if content.data.contains '$' ∧ ¬ content.data.count '$' % 2 = 0 then
        ["Unmatched math mode delimiters ($)"]
       else []) ++
      (if ¬ ((refsOf content).filter (fun r => ! List.contains (labelsOf content) r)) = [] then
        ["Potentially undefined references: " ++ String.intercalate ", "
          ((refsOf content).filter (fun r => ! List.contains (labelsOf content) r))]
       else []) := rfl

/-- `is_valid` is by construction the emptiness of the error list. -/
lemma validate_is_valid_eq (content : String) :
    (validate_latex content).is_valid =
      (validate_latex content).errors.isEmpty := rfl

/-- `structure_complete` is by construction the conjunction of the three
marker tests. -/
lemma validate_structure_complete_eq (content : String) :
    (validate_latex content).structure_complete =
      (hasDocumentclass content && hasBeginDocument content
        && hasEndDocument content) := rfl

lemma braceMsg_data_head (i : Nat) : (braceMsg i).data.head? = some 'L' := rfl

lemma braceMsg_ne (i : Nat) (s : String) (hs : ¬ s.data.head? = some 'L') :
    ¬ braceMsg i = s :=
  fun h => hs (h ▸ braceMsg_data_head i)

lemma aggMsg_data_head (c : Int) :
    ("Unmatched opening braces: " ++ toString c).data.head? = some 'U' := rfl

lemma aggMsg_ne (c : Int) (s : String) (hs : ¬ s.data.head? = some 'U') :
    ¬ ("Unmatched opening braces: " ++ toString c) = s :=
  fun h => hs (h ▸ aggMsg_data_head c)

/-- Claim C5 (confirmed): the validator's brace-balance scan emits exactly
one line-tagged error per closing brace at which the signed counter would
go negative (the counter resetting to zero there, per `specBraceChar`), and
exactly one aggregate error carrying the final counter value when it is
positive — never one error per unclosed opening brace.  The whole error
list is exactly the map of `braceMsg` over the stray-close line numbers,
then the optional single aggregate error, then the structural-marker
errors. -/
theorem validate_brace_scan (content : String) :
    (validate_latex content).errors =
      ((strayCloseLines content).map braceMsg ++
        (if unclosedOpenCount content > 0 then
          ["Unmatched opening braces: " ++ toString (unclosedOpenCount content)]
         else [])) ++
      ((if hasDocumentclass content then [] else ["Missing \\documentclass command"]) ++
       (if hasBeginDocument content then [] else ["Missing \\begin{document}"]) ++
       (if hasEndDocument content then [] else ["Missing \\end{document}"])) := by
  rw [validate_errors_eq]
  simp [List.append_assoc]

/-- Claim C6 (confirmed): each absent structural marker contributes exactly
one occurrence of its own error string to the error list (and none when
present), whatever the rest of the content does; and `structure_complete`
is true exactly when all three markers are present. -/
theorem validate_structure_markers (content : String) :
    (validate_latex content).errors.count "Missing \\documentclass command"
        = (if hasDocumentclass content then 0 else 1) ∧
    (validate_latex content).errors.count "Missing \\begin{document}"
        = (if hasBeginDocument content then 0 else 1) ∧
    (validate_latex content).errors.count "Missing \\end{document}"
        = (if hasEndDocument content then 0 else 1) ∧
    ((validate_latex content).structure_complete = true ↔
      (hasDocumentclass content = true ∧ hasBeginDocument content = true ∧
        hasEndDocument content = true)) := by
  have hmap : ∀ (s : String), ¬ s.data.head? = some 'L' →
      ((strayCloseLines content).map braceMsg).count s = 0 := by
    intro s hs
    refine List.count_eq_zero.mpr ?_
    intro hmem
    obtain ⟨i, _, hi⟩ := List.mem_map.mp hmem
    exact braceMsg_ne i s hs hi
  have hagg : ∀ (s : String), ¬ s.data.head? = some 'U' →
      (if unclosedOpenCount content > 0 then
        ["Unmatched opening braces: " ++ toString (unclosedOpenCount content)]
       else []).count s = 0 := by
    intro s hs
    split_ifs
    · have hne : (("Unmatched opening braces: " ++
          toString (unclosedOpenCount content)) == s) = false :=
        beq_eq_false_iff_ne.mpr (aggMsg_ne (unclosedOpenCount content) s hs)
      simp [List.count_cons, hne]
    · rfl
  refine ⟨?_, ?_, ?_, ?_⟩
  · rw [validate_errors_eq]
    simp only [List.count_append]
    rw [hmap _ (by decide), hagg _ (by decide)]
    split_ifs <;> decide
  · rw [validate_errors_eq]
    simp only [List.count_append]
    rw [hmap _ (by decide), hagg _ (by decide)]
    split_ifs <;> decide
  · rw [validate_errors_eq]
    simp only [List.count_append]
    rw [hmap _ (by decide), hagg _ (by decide)]
    split_ifs <;> decide
  · rw [validate_structure_complete_eq]
    simp [Bool.and_eq_true, and_assoc]

/-- A well-formed document in the sense of the spec's §8 first property:
the scan counter never goes negative (no stray-close event) and ends at
zero, all three structural markers are present, and every referenced
target is also declared as a label target. -/
abbrev WellFormedDoc (content : String) : Prop :=
  strayCloseLines content = [] ∧ unclosedOpenCount content = 0 ∧
  hasDocumentclass content = true ∧ hasBeginDocument content = true ∧
  hasEndDocument content = true ∧
  ∀ r ∈ refsOf content, r ∈ labelsOf content

/-- Claim C8 (confirmed): every well-formed document validates with an
empty error list and `is_valid = true`; and for arbitrary content,
`is_valid` is true exactly when the error list is empty, independently of
the warnings. -/
theorem validate_wellformed_valid (content : String) :
    (WellFormedDoc content →
      (validate_latex content).errors = [] ∧
      (validate_latex content).is_valid = true) ∧
    ((validate_latex content).is_valid = true ↔
      (validate_latex content).errors = []) := by
  constructor
  · rintro ⟨h1, h2, h3, h4, h5, _⟩
    have he : (validate_latex content).errors = [] := by
      rw [validate_errors_eq, h1, h2, h3, h4, h5]
      simp
    exact ⟨he, by rw [validate_is_valid_eq, he]; rfl⟩
  · rw [validate_is_valid_eq]
    simp [List.isEmpty_iff]

/-- A concrete well-formed document. -/
def docOK : String :=
  "\\documentclass{article}\n\\begin{document}\n\\label{a}\nSee \\ref{a}.\n\\end{document}"

/-- Witness for C8: `docOK` is well-formed and validates cleanly. -/
theorem validate_wellformed_valid_witness :
    WellFormedDoc docOK ∧
    ((validate_latex docOK).errors = [] ∧
      (validate_latex docOK).is_valid = true) :=
  ⟨by decide, (validate_wellformed_valid docOK).1 (by decide)⟩

/-- Follows the claim's words: the SET of referenced targets not occurring
among the declared label targets (each dangling target listed once). -/
def undefinedRefSet (content : String) : List String :=
  ((refsOf content).filter (fun r => ! List.contains (labelsOf content) r)).dedup

/-- A document referencing the same undeclared target twice. -/
def docDupRef : String := "\\ref{a} \\ref{a}"

/-- Claim C7 counterexample: on `docDupRef` the emitted warning lists the
undeclared target once per reference occurrence ("a, a"), not the
comma-joined SET ("a") the claim describes — the source filters the
occurrence list `refs` without deduplication. -/
theorem validate_dangling_set_cex :
    (validate_latex docDupRef).warnings =
      ["Potentially undefined references: a, a"] ∧
    undefinedRefSet docDupRef = ["a"] ∧
    ¬ (validate_latex docDupRef).warnings =
      ["Potentially undefined references: " ++
        String.intercalate ", " (undefinedRefSet docDupRef)] := by
  refine ⟨by decide, by decide, by decide⟩

/-- Claim C7 (corrected): the validator joins the occurrence list of
reference targets not among the declared labels (duplicates preserved, in
reading order); it emits exactly one such warning when that list is
non-empty and none when it is empty — never one warning per dangling
reference.  Stated over the warnings carrying the dangling-reference
message prefix, so the math-parity warning is untouched. -/
theorem validate_dangling_single_warning (content : String) :
    (validate_latex content).warnings.filter
        (fun s => List.isPrefixOf "Potentially undefined references: ".data s.data) =
      (if ((refsOf content).filter (fun r => ! List.contains (labelsOf content) r)) = [] then
        ([] : List String)
       else
        ["Potentially undefined references: " ++ String.intercalate ", "
          ((refsOf content).filter (fun r => ! List.contains (labelsOf content) r))]) := by
  rw [validate_warnings_eq, List.filter_append]
  have hmath : (if content.data.contains '$' ∧ ¬ content.data.count '$' % 2 = 0 then
      ["Unmatched math mode delimiters ($)"] else ([] : List String)).filter
        (fun s => List.isPrefixOf "Potentially undefined references: ".data s.data)
      = [] := by
    split_ifs <;> decide
  rw [hmath, List.nil_append]
  by_cases h : ((refsOf content).filter (fun r => ! List.contains (labelsOf content) r)) = []
  · rw [if_pos h, if_neg (not_not_intro h)]
    rfl
  · rw [if_neg h, if_pos h]
    rw [List.filter_cons]
    simp [String.data_append]
